import Mathlib

/-!
Shallow embedding of `dbus/dbus-server-debug-pipe.c` (the in-process debug
pipe server used by the test suite), together with proofs about the
named-endpoint registry, the endpoint creation protocol, and the
connection-establishment protocol.

Modelling conventions:
* The two file-static globals `server_pipe_hash` (a string-keyed hash table
  mapping server names to `DBusServerDebugPipe*`) and
  `server_pipe_hash_refcount` (a C `int`) form `PipeHashState`.  The hash
  table is `Option (List (String × Nat))`, `none` standing for the NULL
  pointer, and entries mapping a name to a server identifier.
* Heap-allocated `DBusServerDebugPipe` objects are tracked in an association
  list from identifiers to `DebugServer` records inside `SysState`; a
  `finalized` flag records that the object has been freed.
* `_dbus_assert` is modelled by returning `none` (`Option`-failure): in a
  debug build a failed assertion aborts the process.
* Fallible allocations are driven by explicit oracle flags (one per
  allocation site), so every failure path of the C code is reachable in the
  model.
* Functions of this repository that live outside the provided source file
  (`dbus_server_ref`, `dbus_server_unref`,
  `dbus_server_set_new_connection_function` from `dbus-server.c`) are
  modelled from the spec and marked as such in their doc comments.
-/

/-- Error codes observable through the `DBusError` out-parameter.
`addressInUse` is `DBUS_ERROR_ADDRESS_IN_USE`, `noMemory` is
`DBUS_ERROR_NO_MEMORY`, `noServer` is `DBUS_ERROR_NO_SERVER`, and
`failed msg` is `DBUS_ERROR_FAILED` with a human-readable detail message. -/
inductive DbusError where
  | addressInUse : DbusError
  | noMemory : DbusError
  | noServer : DbusError
  | failed : String → DbusError
  deriving DecidableEq, Repr

/-- The two file-static globals of `dbus-server-debug-pipe.c`:
`server_pipe_hash` (NULL modelled as `none`; entries map a server name to a
server identifier) and `server_pipe_hash_refcount` (a C `int`). -/
structure PipeHashState where
  hash : Option (List (String × Nat))
  refcount : Int
  deriving DecidableEq, Repr

/-- A `DBusServerDebugPipe` object.  `name` and `disconnected` are the
fields of the struct itself; `refcount` and `hasNewConnFn` model the
inherited `DBusServer` base fields (the external base's reference count and
whether `new_connection_function` is set); `finalized` records that
`debug_finalize` has freed the object. -/
structure DebugServer where
  name : String
  disconnected : Bool
  refcount : Nat
  hasNewConnFn : Bool
  finalized : Bool
  deriving DecidableEq, Repr

/-- The whole mutable state the embedded code touches: the registry globals,
the heap of `DBusServerDebugPipe` objects (identifier-indexed), and a
fresh-identifier counter. -/
structure SysState where
  reg : PipeHashState
  servers : List (Nat × DebugServer)
  nextId : Nat
  deriving DecidableEq, Repr

/-- Lookup of a name in the registry hash entries
(`_dbus_hash_table_lookup_string`). -/
def lookupStr : List (String × Nat) → String → Option Nat
  | [], _ => none
  | (k, v) :: rest, n => if k = n then some v else lookupStr rest n

/-- Lookup of a server identifier in the heap. -/
def lookupSrv : List (Nat × DebugServer) → Nat → Option DebugServer
  | [], _ => none
  | (k, v) :: rest, i => if k = i then some v else lookupSrv rest i

/-- Update the record stored under identifier `i` in the heap. -/
def updateSrv : List (Nat × DebugServer) → Nat → (DebugServer → DebugServer) →
    List (Nat × DebugServer)
  | [], _, _ => []
  | (k, v) :: rest, i, f =>
    (if k = i then (k, f v) else (k, v)) :: updateSrv rest i f

/-- `pipe_hash_ref` (lines 67-83).  If `server_pipe_hash` is NULL it asserts
the refcount is 0 and allocates the table (`allocOk` is the allocation
oracle; on failure it returns FALSE with the globals untouched).  On every
success path it then executes `server_pipe_hash_refcount = 1;` — an
assignment, exactly as in the source.  `none` models a tripped
`_dbus_assert`. -/
def pipe_hash_ref (allocOk : Bool) (s : PipeHashState) :
    Option (PipeHashState × Bool) :=
  if s.hash = none then
    if s.refcount ≠ 0 then none
    else if allocOk then some ({ hash := some [], refcount := 1 }, true)
    else some (s, false)
  else
    some ({ s with refcount := 1 }, true)

/-- `pipe_hash_unref` (lines 85-97): asserts the table is non-NULL and the
refcount positive, decrements, and on reaching zero destroys the table and
resets the global to NULL. -/
def pipe_hash_unref (s : PipeHashState) : Option PipeHashState :=
  if s.hash = none then none
  else if s.refcount ≤ 0 then none
  else if s.refcount - 1 = 0 then some { hash := none, refcount := 0 }
  else some { s with refcount := s.refcount - 1 }

/-- `debug_finalize` (lines 99-110): releases the registry reference via
`pipe_hash_unref`, finalizes the base, frees the duplicated name and the
object itself (modelled by setting `finalized`).  Note that it does NOT
remove the name-to-server entry from the hash table. -/
def debug_finalize (i : Nat) (s : SysState) : Option SysState :=
  match pipe_hash_unref s.reg with
  | none => none
  | some reg1 =>
      let srv1 := updateSrv s.servers i (fun v => { v with finalized := true })
      some { s with reg := reg1, servers := srv1 }

/-- `debug_disconnect` (lines 112-116): sets the `disconnected` flag. -/
def debug_disconnect (i : Nat) (s : SysState) : SysState :=
  { s with servers := updateSrv s.servers i (fun v => { v with disconnected := true }) }

/-- Modelled from the spec: `dbus_server_ref` lives in `dbus-server.c`,
which is not under `src/`; per the spec the base type supplies reference
counting, so `ref` increments the endpoint's reference count. -/
def dbus_server_ref (i : Nat) (s : SysState) : SysState :=
  { s with servers := updateSrv s.servers i (fun v => { v with refcount := v.refcount + 1 }) }

/-- Modelled from the spec: `dbus_server_unref` lives in `dbus-server.c`,
which is not under `src/`; per the spec it decrements the reference count
and, when the count reaches zero, invokes the vtable finalizer — here
`debug_finalize`, the only finalizer in this core.  Unreferencing a freed
object or an object whose count is already zero is undefined (`none`). -/
def dbus_server_unref (i : Nat) (s : SysState) : Option SysState :=
  match lookupSrv s.servers i with
  | none => none
  | some v =>
      if v.finalized then none
      else if v.refcount = 0 then none
      else if v.refcount = 1 then
        debug_finalize i
          { s with servers := updateSrv s.servers i (fun w => { w with refcount := 0 }) }
      else
        some { s with servers := updateSrv s.servers i (fun w => { w with refcount := w.refcount - 1 }) }

/-- Modelled from the spec: `dbus_server_set_new_connection_function` lives
in `dbus-server.c`, which is not under `src/`; per the spec the base stores
the acceptor callback, modelled as the `hasNewConnFn` flag. -/
def dbus_server_set_new_connection_function (i : Nat) (b : Bool)
    (s : SysState) : SysState :=
  { s with servers := updateSrv s.servers i (fun v => { v with hasNewConnFn := b }) }

/-- Allocation oracle for `_dbus_server_debug_pipe_new`, one flag per
fallible step: hash-table creation inside `pipe_hash_ref` (line 74),
`dbus_new0` (line 149), `_dbus_string_init` (line 153), the two
`_dbus_string_append` calls (lines 156-157), `_dbus_strdup` (line 160),
`_dbus_server_init_base` (line 164), and
`_dbus_hash_table_insert_string` (line 168). -/
structure CreatePlan where
  hashNew : Bool
  newServer : Bool
  strInit : Bool
  append1 : Bool
  append2 : Bool
  strdup : Bool
  initBase : Bool
  insert : Bool
  deriving DecidableEq, Repr

/-- Result of `_dbus_server_debug_pipe_new`: the post-state, the returned
server (`none` = NULL), and what the function wrote into the `DBusError`
out-parameter (`none` = left clear; the caller passes it in clear, per
`_DBUS_ASSERT_ERROR_IS_CLEAR`). -/
structure CreateResult where
  state : SysState
  server : Option Nat
  error : Option DbusError
  deriving DecidableEq, Repr

/-- The shared tail of the `nomem_4 .. nomem_0` unwind labels
(lines 179-190): each label frees the intermediate resources acquired so
far (no effect on `SysState`), then all fall through to
`pipe_hash_unref ()` and `dbus_set_error (error, DBUS_ERROR_NO_MEMORY,
NULL)`. -/
def nomemUnwind (s : SysState) : Option CreateResult :=
  match pipe_hash_unref s.reg with
  | none => none
  | some reg1 => some { state := { s with reg := reg1 }, server := none, error := some DbusError.noMemory }

/-- `_dbus_server_debug_pipe_new` (lines 130-191), the endpoint creation
protocol.  Note the two faithful quirks: when the initial `pipe_hash_ref`
fails, the function returns NULL with the error NOT set (lines 139-140);
and on the `AddressInUse` path it calls `pipe_hash_unref` (line 145). -/
def _dbus_server_debug_pipe_new (server_name : String) (p : CreatePlan)
    (s : SysState) : Option CreateResult :=
  match pipe_hash_ref p.hashNew s.reg with
  | none => none
  | some (reg1, ok) =>
    if ok = false then
      some { state := { s with reg := reg1 }, server := none, error := none }
    else
      let s1 : SysState := { s with reg := reg1 }
      let entries := reg1.hash.getD []
      match lookupStr entries server_name with
      | some _ =>
        match pipe_hash_unref s1.reg with
        | none => none
        | some reg2 =>
          some { state := { s1 with reg := reg2 }, server := none, error := some DbusError.addressInUse }
      | none =>
        if p.newServer = false then nomemUnwind s1
        else if p.strInit = false then nomemUnwind s1
        else if p.append1 = false ∨ p.append2 = false then nomemUnwind s1
        else if p.strdup = false then nomemUnwind s1
        else if p.initBase = false then nomemUnwind s1
        else if p.insert = false then nomemUnwind s1
        else
          let i := s1.nextId
          let srv : DebugServer :=
            { name := server_name, disconnected := false, refcount := 1,
              hasNewConnFn := false, finalized := false }
          let reg2 : PipeHashState := { reg1 with hash := some ((server_name, i) :: entries) }
          some { state := { reg := reg2, servers := (i, srv) :: s1.servers, nextId := i + 1 },
                 server := some i, error := none }

/-- The acceptor callback's effect on the endpoint, modelled as the number
of `dbus_server_unref` calls the callback performs on it (0 for a callback
that leaves the endpoint's references alone). -/
def callbackRun : Nat → Nat → SysState → Option SysState
  | 0, _, s => some s
  | k + 1, i, s =>
    match dbus_server_unref i s with
    | none => none
    | some s1 => callbackRun k i s1

/-- Resources the connection establisher acquires and must release; the
ledger in `ConnectResult.leaked` holds whatever the establisher still owns
(and did not return to the caller) when the call ends. -/
inductive Res where
  | addressString : Res
  | clientFd : Res
  | serverFd : Res
  | clientTransport : Res
  | serverTransport : Res
  | connection : Res
  deriving DecidableEq, Repr

/-- What a transport object was created with: the `server` flag and the
address argument of `_dbus_transport_new_for_fd` (`none` = NULL). -/
structure TransportObj where
  isServer : Bool
  address : Option String
  deriving DecidableEq, Repr

/-- On success `_dbus_transport_debug_pipe_new` returns the client-side
transport; the server-side transport it created is recorded too. -/
structure ConnectSuccess where
  client : TransportObj
  serverSide : TransportObj
  deriving DecidableEq, Repr

/-- Oracle for `_dbus_transport_debug_pipe_new`: one flag per fallible
step (`_dbus_string_init`, the two appends, `_dbus_full_duplex_pipe`, the
two `_dbus_transport_new_for_fd` calls,
`_dbus_transport_set_auth_mechanisms`,
`_dbus_connection_new_for_transport`), plus the number of
`dbus_server_unref` calls the acceptor callback performs on the server. -/
structure ConnectPlan where
  strInit : Bool
  append1 : Bool
  append2 : Bool
  pipe : Bool
  clientT : Bool
  serverT : Bool
  setAuth : Bool
  connNew : Bool
  cbUnrefs : Nat
  deriving DecidableEq, Repr

/-- Result of `_dbus_transport_debug_pipe_new`: post-state, leak ledger,
returned client transport (with the server-side transport it paired), and
the `DBusError` out-parameter value. -/
structure ConnectResult where
  state : SysState
  leaked : List Res
  transport : Option ConnectSuccess
  error : Option DbusError
  deriving DecidableEq, Repr

/-- The hand-off block (lines 306-312): `dbus_server_ref (server)`, invoke
the acceptor callback (modelled as `k` unrefs on the server), then
`dbus_server_unref (server)`. -/
def handoffStep (k i : Nat) (s : SysState) : Option SysState :=
  match callbackRun k i (dbus_server_ref i s) with
  | none => none
  | some s2 => dbus_server_unref i s2

/-- Ledger after `_dbus_string_init` succeeds (line 230): the establisher
holds the address string. -/
def heldStr : List Res := [Res.addressString]

/-- Ledger after `_dbus_full_duplex_pipe` succeeds (line 244): both raw
channel handles are held as well. -/
def heldFds : List Res := Res.clientFd :: Res.serverFd :: heldStr

/-- Ledger after the client transport is created (line 256) and the address
string freed (line 267): the client handle's ownership moved into the
transport and the string is gone. -/
def heldClientT : List Res :=
  (Res.clientTransport :: heldFds.erase Res.clientFd).erase Res.addressString

/-- Ledger after the server transport is created (line 271): the server
handle's ownership moved into the transport. -/
def heldServerT : List Res := Res.serverTransport :: heldClientT.erase Res.serverFd

/-- Ledger after the connection is created (line 292) and the establisher's
server-transport reference dropped (line 293): the transport now lives
inside the connection. -/
def heldConn : List Res := Res.connection :: heldServerT.erase Res.serverTransport

/-- `_dbus_transport_debug_pipe_new` (lines 202-320), the connection
establisher.  The ledger starts empty; each acquisition pushes a `Res` and
each free/ownership transfer erases one, mirroring the source line by
line.  The returned client transport is erased from the ledger on the
success path because ownership passes to the caller.  `none` models a
tripped assertion or a dereference of a freed server object. -/
def _dbus_transport_debug_pipe_new (server_name : String) (p : ConnectPlan)
    (s : SysState) : Option ConnectResult :=
  match s.reg.hash with
  | none =>
    some { state := s, leaked := [], transport := none, error := some DbusError.noServer }
  | some entries =>
    match lookupStr entries server_name with
    | none =>
      some { state := s, leaked := [], transport := none, error := some DbusError.noServer }
    | some i =>
      match lookupSrv s.servers i with
      | none => none
      | some srv =>
        if srv.finalized then none
        else if srv.disconnected then
          some { state := s, leaked := [], transport := none, error := some DbusError.noServer }
        else if p.strInit = false then
          some { state := s, leaked := [], transport := none, error := some DbusError.noMemory }
        else if p.append1 = false ∨ p.append2 = false then
          some { state := s, leaked := heldStr.erase Res.addressString,
                 transport := none, error := some DbusError.noMemory }
        else if p.pipe = false then
          some { state := s, leaked := heldStr.erase Res.addressString,
                 transport := none,
                 error := some (DbusError.failed "Could not create full-duplex pipe") }
        else if p.clientT = false then
          some { state := s,
                 leaked := ((heldFds.erase Res.clientFd).erase Res.serverFd).erase Res.addressString,
                 transport := none, error := some DbusError.noMemory }
        else if p.serverT = false then
          some { state := s,
                 leaked := (heldClientT.erase Res.clientTransport).erase Res.serverFd,
                 transport := none, error := some DbusError.noMemory }
        else if p.setAuth = false then
          some { state := s,
                 leaked := (heldServerT.erase Res.serverTransport).erase Res.clientTransport,
                 transport := none, error := some DbusError.noMemory }
        else if p.connNew = false then
          some { state := s,
                 leaked := (heldServerT.erase Res.serverTransport).erase Res.clientTransport,
                 transport := none, error := some DbusError.noMemory }
        else
          match (if srv.hasNewConnFn then handoffStep p.cbUnrefs i s
                 else some s) with
          | none => none
          | some s3 =>
            some { state := s3,
                   leaked := (heldConn.erase Res.connection).erase Res.clientTransport,
                   transport := some
                     { client := { isServer := false,
                                   address := some (String.append "debug-pipe:name=" server_name) },
                       serverSide := { isServer := true, address := none } },
                   error := none }

/-- All allocations succeed during endpoint creation. -/
def allOk : CreatePlan :=
  { hashNew := true, newServer := true, strInit := true, append1 := true,
    append2 := true, strdup := true, initBase := true, insert := true }

/-- All fallible steps succeed during connection establishment; the
acceptor callback (if any) does not touch the endpoint's references. -/
def allConn : ConnectPlan :=
  { strInit := true, append1 := true, append2 := true, pipe := true,
    clientT := true, serverT := true, setAuth := true, connNew := true,
    cbUnrefs := 0 }

/-- The process-start state: NULL hash table, refcount 0, empty heap. -/
def initState : SysState :=
  { reg := { hash := none, refcount := 0 }, servers := [], nextId := 0 }

/-- The endpoint object right after a successful creation under name "a". -/
def srvA : DebugServer :=
  { name := "a", disconnected := false, refcount := 1,
    hasNewConnFn := false, finalized := false }

/-- State after one successful `_dbus_server_debug_pipe_new "a"` from the
process-start state: live endpoint 0 under "a", registry use-count 1. -/
def stA : SysState :=
  { reg := { hash := some [("a", 0)], refcount := 1 },
    servers := [(0, srvA)], nextId := 1 }

/-- Like `stA` but with the registry globals torn down (NULL table,
refcount 0) while endpoint 0 is still live. -/
def stAWiped : SysState :=
  { reg := { hash := none, refcount := 0 }, servers := [(0, srvA)], nextId := 1 }

/-- Key heap-lookup lemma: updating the record stored under `i` and then
looking `i` up yields the updated record. -/
theorem lookupSrv_updateSrv (i : Nat) (f : DebugServer → DebugServer) :
    ∀ l : List (Nat × DebugServer),
      lookupSrv (updateSrv l i f) i = Option.map f (lookupSrv l i)
  | [] => rfl
  | (k, v) :: rest => by
    by_cases h : k = i
    · subst h
      have h1 : updateSrv ((k, v) :: rest) k f = (k, f v) :: updateSrv rest k f := by
        simp [updateSrv]
      rw [h1]
      simp [lookupSrv]
    · have h1 : updateSrv ((k, v) :: rest) i f = (k, v) :: updateSrv rest i f := by
        simp [updateSrv, h]
      have h2 : lookupSrv ((k, v) :: rest) i = lookupSrv rest i := by
        simp [lookupSrv, h]
      have h3 : lookupSrv ((k, v) :: updateSrv rest i f) i = lookupSrv (updateSrv rest i f) i := by
        simp [lookupSrv, h]
      rw [h1, h3, h2]
      exact lookupSrv_updateSrv i f rest

/-- `pipe_hash_unref` succeeds (does not trip its assertions) whenever the
table is allocated and the refcount positive. -/
theorem pipe_hash_unref_isSome (r : PipeHashState) (hh : ¬ r.hash = none)
    (hc : 0 < r.refcount) : ∃ r1, pipe_hash_unref r = some r1 := by
  unfold pipe_hash_unref
  rw [if_neg hh, if_neg (by omega)]
  by_cases h : r.refcount - 1 = 0 <;> simp [h]

/-- An unref of an object holding at least two references just decrements. -/
theorem dbus_server_unref_decrements (s : SysState) (i : Nat) (v : DebugServer)
    (hv : lookupSrv s.servers i = some v) (hf : v.finalized = false)
    (h2 : 2 ≤ v.refcount) :
    dbus_server_unref i s =
      some { s with servers := updateSrv s.servers i (fun w => { w with refcount := w.refcount - 1 }) } := by
  have h0 : ¬ v.refcount = 0 := by omega
  have h1 : ¬ v.refcount = 1 := by omega
  unfold dbus_server_unref
  rw [hv]
  simp [hf, h0, h1]

/-- An unref of an object holding exactly one reference finalizes it:
`debug_finalize` runs, the registry reference is released, and the object
is freed. -/
theorem dbus_server_unref_finalizes (s : SysState) (i : Nat) (v : DebugServer)
    (hv : lookupSrv s.servers i = some v) (hf : v.finalized = false)
    (h1 : v.refcount = 1) (hh : ¬ s.reg.hash = none) (hc : 0 < s.reg.refcount) :
    ∃ s1, dbus_server_unref i s = some s1 ∧
      lookupSrv s1.servers i = some { v with refcount := 0, finalized := true } ∧
      pipe_hash_unref s.reg = some s1.reg := by
  obtain ⟨r1, hr1⟩ := pipe_hash_unref_isSome s.reg hh hc
  refine ⟨{ reg := r1,
            servers := updateSrv (updateSrv s.servers i (fun w => { w with refcount := 0 })) i
              (fun w => { w with finalized := true }),
            nextId := s.nextId }, ?_, ?_, ?_⟩
  · unfold dbus_server_unref
    rw [hv]
    simp only [hf, h1, Bool.false_eq_true, if_false, one_ne_zero, if_true]
    unfold debug_finalize
    dsimp only
    rw [hr1]
  · rw [lookupSrv_updateSrv, lookupSrv_updateSrv, hv]
    rfl
  · exact hr1

/-- Running the acceptor callback for `j` unrefs on an object holding more
than `j` references decrements its count by `j`, finalizes nothing, and
leaves the registry untouched. -/
theorem callbackRun_decrements (i : Nat) :
    ∀ (j : Nat) (s : SysState) (v : DebugServer),
      lookupSrv s.servers i = some v → v.finalized = false → j < v.refcount →
      ∃ s1, callbackRun j i s = some s1 ∧
        lookupSrv s1.servers i = some { v with refcount := v.refcount - j } ∧
        s1.reg = s.reg
  | 0, s, v, hv, _, _ => ⟨s, rfl, hv, rfl⟩
  | j + 1, s, v, hv, hf, hj => by
    have h2 : 2 ≤ v.refcount := by omega
    have hstep := dbus_server_unref_decrements s i v hv hf h2
    have hv1 : lookupSrv (updateSrv s.servers i (fun w => { w with refcount := w.refcount - 1 })) i =
        some { v with refcount := v.refcount - 1 } := by
      rw [lookupSrv_updateSrv, hv]; rfl
    obtain ⟨s1, hrun, hlook, hreg⟩ :=
      callbackRun_decrements i j
        { s with servers := updateSrv s.servers i (fun w => { w with refcount := w.refcount - 1 }) }
        { v with refcount := v.refcount - 1 } hv1 hf (by show j < v.refcount - 1; omega)
    have harith : v.refcount - 1 - j = v.refcount - (j + 1) := by omega
    rw [harith] at hlook
    refine ⟨s1, ?_, hlook, hreg⟩
    simp only [callbackRun]
    rw [hstep]
    exact hrun

/-- Endpoint "a" after `debug_disconnect`. -/
def srvADisc : DebugServer :=
  { name := "a", disconnected := true, refcount := 1,
    hasNewConnFn := false, finalized := false }

/-- `stA` after `debug_disconnect` on endpoint 0. -/
def stADisc : SysState :=
  { reg := { hash := some [("a", 0)], refcount := 1 },
    servers := [(0, srvADisc)], nextId := 1 }

/-- `stADisc` after the registry globals have been torn down. -/
def stADiscWiped : SysState :=
  { reg := { hash := none, refcount := 0 }, servers := [(0, srvADisc)], nextId := 1 }

/-- State with "a" disconnected (endpoint 0, still un-finalized) and a
fresh endpoint 1 re-registered under the same name "a". -/
def stARe : SysState :=
  { reg := { hash := some [("a", 1)], refcount := 1 },
    servers := [(1, srvA), (0, srvADisc)], nextId := 2 }

/-- Endpoint "b" while live. -/
def srvB : DebugServer :=
  { name := "b", disconnected := false, refcount := 1,
    hasNewConnFn := false, finalized := false }

/-- State after creating "a" then "b": both live, yet the registry
refcount is 1 (the `= 1` assignment in `pipe_hash_ref` did not count the
second acquisition). -/
def stAB : SysState :=
  { reg := { hash := some [("b", 1), ("a", 0)], refcount := 1 },
    servers := [(1, srvB), (0, srvA)], nextId := 2 }

/-- Endpoint "a" after finalization. -/
def srvAFin : DebugServer :=
  { name := "a", disconnected := false, refcount := 0,
    hasNewConnFn := false, finalized := true }

/-- `stAB` after finalizing endpoint "a": endpoint "b" is still live but
the registry storage has been destroyed. -/
def stBLive : SysState :=
  { reg := { hash := none, refcount := 0 },
    servers := [(1, srvB), (0, srvAFin)], nextId := 2 }

/-- A registry whose storage is allocated (holding the entry for "a") with
use-count 1. -/
def regOne : PipeHashState := { hash := some [("a", 0)], refcount := 1 }

/-- C1: the claim says a second `_dbus_server_debug_pipe_new "a"` while
"a" is live fails with `AddressInUse` and leaves the registry's use-count
and entry set unchanged.  The code does fail with `AddressInUse`, but
because `pipe_hash_ref` executed `server_pipe_hash_refcount = 1;` (not an
increment), the `pipe_hash_unref` on the error path drops the count from 1
to 0 and destroys the hash table: the entry set `[("a", 0)]` and use-count
1 become `none` and 0.  The live endpoint 0 survives but its registration
is gone. -/
theorem second_create_wipes_registry :
    _dbus_server_debug_pipe_new "a" allOk initState =
      some { state := stA, server := some 0, error := none } ∧
    stA.reg.hash = some [("a", 0)] ∧ stA.reg.refcount = 1 ∧
    _dbus_server_debug_pipe_new "a" allOk stA =
      some { state := stAWiped, server := none, error := some DbusError.addressInUse } ∧
    stAWiped.reg.hash = none ∧ stAWiped.reg.refcount = 0 :=
  ⟨by decide, rfl, rfl, by decide, rfl, rfl⟩

/-- C2: the claim says every allocation-failure path of
`_dbus_server_debug_pipe_new` leaves the registry's use-count and entry
set unchanged.  With endpoint "a" live (use-count 1, entries
`[("a", 0)]`), a failure of `dbus_new0` while creating "b" runs the
`nomem_0` unwind, whose `pipe_hash_unref` — because `pipe_hash_ref` had
assigned 1 instead of incrementing — destroys the table and zeroes the
count. -/
theorem nomem_unwind_wipes_registry :
    _dbus_server_debug_pipe_new "a" allOk initState =
      some { state := stA, server := some 0, error := none } ∧
    _dbus_server_debug_pipe_new "b" { allOk with newServer := false } stA =
      some { state := stAWiped, server := none, error := some DbusError.noMemory } ∧
    ¬ stAWiped.reg = stA.reg :=
  ⟨by decide, by decide, by decide⟩

/-- C3: the claim says a successful `pipe_hash_ref` increments the
use-count by one.  From a use-count of 1 the code returns success with the
use-count still 1 (line 80 is the assignment
`server_pipe_hash_refcount = 1;`), not 2. -/
theorem acquire_assigns_one :
    pipe_hash_ref true regOne = some (regOne, true) ∧
    regOne.refcount = 1 ∧ ¬ regOne.refcount = regOne.refcount + 1 :=
  ⟨by decide, rfl, by decide⟩

/-- C4: the claim says a failure of the initial `pipe_hash_ref` inside
`_dbus_server_debug_pipe_new` is reported as `OutOfMemory` through the
error out-parameter.  The code (lines 139-140) returns NULL without
touching the error: the call fails silently (`error := none`). -/
theorem ref_failure_sets_no_error :
    _dbus_server_debug_pipe_new "a" { allOk with hashNew := false } initState =
      some { state := initState, server := none, error := none } :=
  by decide

/-- C5: the claim says the registry storage is allocated iff at least one
endpoint is live.  Creating "a" then "b" leaves the use-count at 1 (the
assignment bug), so finalizing "a" alone destroys the storage while "b" is
still live: afterwards `_dbus_transport_debug_pipe_new "b"` fails with
`NoServer` even though "b" is live and connected, and finalizing "b" trips
the `_dbus_assert (server_pipe_hash != NULL)` in `pipe_hash_unref`
(modelled as `none`). -/
theorem registry_destroyed_under_live_endpoint :
    _dbus_server_debug_pipe_new "a" allOk initState =
      some { state := stA, server := some 0, error := none } ∧
    _dbus_server_debug_pipe_new "b" allOk stA =
      some { state := stAB, server := some 1, error := none } ∧
    dbus_server_unref 0 stAB = some stBLive ∧
    lookupSrv stBLive.servers 1 = some srvB ∧ srvB.finalized = false ∧
    stBLive.reg.hash = none ∧
    _dbus_transport_debug_pipe_new "b" allConn stBLive =
      some { state := stBLive, leaked := [], transport := none, error := some DbusError.noServer } ∧
    dbus_server_unref 1 stBLive = none :=
  ⟨by decide, by decide, by decide, by decide, rfl, rfl, by decide, by decide⟩

/-- C6: the claim says that after `debug_disconnect`, connection attempts
fail with `NoServer` (which holds) and that creations under the same name
keep failing with `AddressInUse` until the original endpoint is finalized.
The first re-creation is indeed rejected with `AddressInUse`, but its
error path destroys the registry (the use-count assignment bug), so the
next re-creation SUCCEEDS while the original, never-finalized endpoint 0
still exists. -/
theorem recreate_succeeds_before_finalize :
    _dbus_server_debug_pipe_new "a" allOk initState =
      some { state := stA, server := some 0, error := none } ∧
    debug_disconnect 0 stA = stADisc ∧
    _dbus_transport_debug_pipe_new "a" allConn stADisc =
      some { state := stADisc, leaked := [], transport := none, error := some DbusError.noServer } ∧
    _dbus_server_debug_pipe_new "a" allOk stADisc =
      some { state := stADiscWiped, server := none, error := some DbusError.addressInUse } ∧
    _dbus_server_debug_pipe_new "a" allOk stADiscWiped =
      some { state := stARe, server := some 1, error := none } ∧
    lookupSrv stARe.servers 0 = some srvADisc ∧ srvADisc.finalized = false :=
  ⟨by decide, by decide, by decide, by decide, by decide, by decide, rfl⟩

/-- C7: the hand-off (lines 306-312) takes a temporary self-reference on
the endpoint before invoking the acceptor callback and drops it only after
the callback returns.  If the endpoint holds `r ≥ 1` external references
and the callback releases all `r` of them, then after any prefix of the
callback's unrefs the endpoint is still un-finalized with a positive
reference count (the temporary reference keeps it at `r + 1 - j ≥ 1`), and
the endpoint is finalized exactly at the establisher's own unref after the
callback has returned. -/
theorem selfref_guards_callback (s : SysState) (i : Nat) (v : DebugServer)
    (r : Nat) (hv : lookupSrv s.servers i = some v) (hfin : v.finalized = false)
    (hr : v.refcount = r) (hr1 : 1 ≤ r)
    (hh : ¬ s.reg.hash = none) (hrc : 0 < s.reg.refcount) :
    (∀ j, j ≤ r → ∃ sj w, callbackRun j i (dbus_server_ref i s) = some sj ∧
        lookupSrv sj.servers i = some w ∧ w.finalized = false ∧
        w.refcount = r + 1 - j ∧ 0 < w.refcount) ∧
    (∃ sr sF, callbackRun r i (dbus_server_ref i s) = some sr ∧
        lookupSrv sr.servers i = some { v with refcount := 1 } ∧
        dbus_server_unref i sr = some sF ∧
        lookupSrv sF.servers i = some { v with refcount := 0, finalized := true }) := by
  subst hr
  have hv1 : lookupSrv (dbus_server_ref i s).servers i =
      some { v with refcount := v.refcount + 1 } := by
    unfold dbus_server_ref
    dsimp only
    rw [lookupSrv_updateSrv, hv]
    rfl
  constructor
  · intro j hj
    obtain ⟨sj, hrun, hlook, hregj⟩ :=
      callbackRun_decrements i j (dbus_server_ref i s)
        { v with refcount := v.refcount + 1 } hv1 hfin
        (by show j < v.refcount + 1; omega)
    refine ⟨sj, _, hrun, hlook, hfin, ?_, ?_⟩
    · show v.refcount + 1 - j = v.refcount + 1 - j
      rfl
    · show 0 < v.refcount + 1 - j
      omega
  · obtain ⟨sr, hrun, hlook, hregr⟩ :=
      callbackRun_decrements i v.refcount (dbus_server_ref i s)
        { v with refcount := v.refcount + 1 } hv1 hfin
        (by show v.refcount < v.refcount + 1; omega)
    dsimp only at hlook
    have harith : v.refcount + 1 - v.refcount = 1 := by omega
    rw [harith] at hlook
    have hh2 : ¬ sr.reg.hash = none := by rw [hregr]; exact hh
    have hrc2 : 0 < sr.reg.refcount := by rw [hregr]; exact hrc
    obtain ⟨sF, hunref, hlookF, _⟩ :=
      dbus_server_unref_finalizes sr i { v with refcount := 1 } hlook hfin rfl hh2 hrc2
    exact ⟨sr, sF, hrun, hlook, hunref, hlookF⟩

/-- Witness for C7 at a concrete input: endpoint 0 in `stA` holds one
external reference, the callback releases it, and the endpoint survives
the callback and is finalized at the trailing unref. -/
theorem selfref_guards_callback_witness :
    (∀ j, j ≤ 1 → ∃ sj w, callbackRun j 0 (dbus_server_ref 0 stA) = some sj ∧
        lookupSrv sj.servers 0 = some w ∧ w.finalized = false ∧
        w.refcount = 1 + 1 - j ∧ 0 < w.refcount) ∧
    (∃ sr sF, callbackRun 1 0 (dbus_server_ref 0 stA) = some sr ∧
        lookupSrv sr.servers 0 = some { srvA with refcount := 1 } ∧
        dbus_server_unref 0 sr = some sF ∧
        lookupSrv sF.servers 0 = some { srvA with refcount := 0, finalized := true }) :=
  selfref_guards_callback stA 0 srvA 1 (by decide) rfl rfl (by decide)
    (by decide) (by decide)

set_option maxHeartbeats 2000000 in
/-- C8: on every successful `_dbus_transport_debug_pipe_new server_name`,
the returned client-side transport was created with
`server = FALSE` and the address string `"debug-pipe:name=" ++
server_name` (lines 236-237, 256-257), and the server-side transport with
`server = TRUE` and a NULL address (lines 271-272). -/
theorem client_address_server_flag (s : SysState) (server_name : String)
    (p : ConnectPlan) (res : ConnectResult) (cs : ConnectSuccess)
    (h : _dbus_transport_debug_pipe_new server_name p s = some res)
    (ht : res.transport = some cs) :
    cs.client.address = some (String.append "debug-pipe:name=" server_name) ∧
    cs.client.isServer = false ∧
    cs.serverSide.address = none ∧ cs.serverSide.isServer = true := by
  unfold _dbus_transport_debug_pipe_new at h
  repeat' split at h
  all_goals try exact Option.noConfusion h
  all_goals cases h
  all_goals try exact Option.noConfusion ht
  cases ht
  exact ⟨rfl, rfl, rfl, rfl⟩

/-- The success result of establishing a connection to "a" in state `stA`. -/
def resConnA : ConnectResult :=
  { state := stA, leaked := [],
    transport := some
      { client := { isServer := false, address := some "debug-pipe:name=a" },
        serverSide := { isServer := true, address := none } },
    error := none }

/-- Witness for C8 at a concrete input. -/
theorem client_address_server_flag_witness :
    (resConnA.transport.getD
        { client := { isServer := true, address := none },
          serverSide := { isServer := true, address := none } }).client.address =
      some (String.append "debug-pipe:name=" "a") ∧
    (resConnA.transport.getD
        { client := { isServer := true, address := none },
          serverSide := { isServer := true, address := none } }).client.isServer = false ∧
    (resConnA.transport.getD
        { client := { isServer := true, address := none },
          serverSide := { isServer := true, address := none } }).serverSide.address = none ∧
    (resConnA.transport.getD
        { client := { isServer := true, address := none },
          serverSide := { isServer := true, address := none } }).serverSide.isServer = true :=
  client_address_server_flag stA "a" allConn resConnA
    { client := { isServer := false, address := some "debug-pipe:name=a" },
      serverSide := { isServer := true, address := none } }
    (by decide) rfl

set_option maxHeartbeats 2000000 in
/-- C9 (amended): whenever the channel-pair primitive
`_dbus_full_duplex_pipe` fails during `_dbus_transport_debug_pipe_new`
against a live, non-disconnected endpoint, the call fails with
`DBUS_ERROR_FAILED` carrying the detail "Could not create full-duplex
pipe" (line 248; the source capitalizes "Could"), the address string built
so far is released (`leaked = []`), and the state is untouched. -/
theorem pipe_failure_reports_failed (s : SysState) (server_name : String)
    (p : ConnectPlan) (es : List (String × Nat)) (i : Nat) (v : DebugServer)
    (hh : s.reg.hash = some es) (hl : lookupStr es server_name = some i)
    (hs : lookupSrv s.servers i = some v) (hf : v.finalized = false)
    (hd : v.disconnected = false) (h1 : p.strInit = true) (h2 : p.append1 = true)
    (h3 : p.append2 = true) (hp : p.pipe = false) :
    _dbus_transport_debug_pipe_new server_name p s =
      some { state := s, leaked := [], transport := none,
             error := some (DbusError.failed "Could not create full-duplex pipe") } := by
  unfold _dbus_transport_debug_pipe_new
  rw [hh]
  simp only [hl, hs, hf, hd, h1, h2, h3, hp, Bool.false_eq_true, if_false,
    Bool.true_eq_false, or_self, heldStr]
  rfl

/-- The oracle with only the channel-pair step failing. -/
def pipeFail : ConnectPlan := { allConn with pipe := false }

/-- Witness for the amended C9 at a concrete input. -/
theorem pipe_failure_reports_failed_witness :
    _dbus_transport_debug_pipe_new "a" pipeFail stA =
      some { state := stA, leaked := [], transport := none,
             error := some (DbusError.failed "Could not create full-duplex pipe") } :=
  pipe_failure_reports_failed stA "a" pipeFail [("a", 0)] 0 srvA rfl rfl
    (by decide) rfl rfl rfl rfl rfl rfl

/-- Counterexample to C9 as stated: the claim quotes the detail string as
"could not create full-duplex pipe", but at a concrete failing input the
error detail the code produces is "Could not create full-duplex pipe"
(capital C, line 248), a different string. -/
theorem pipe_failure_message_capitalized :
    Option.map (fun r => r.error) (_dbus_transport_debug_pipe_new "a" pipeFail stA) =
      some (some (DbusError.failed "Could not create full-duplex pipe")) ∧
    ¬ DbusError.failed "Could not create full-duplex pipe" =
        DbusError.failed "could not create full-duplex pipe" :=
  ⟨by decide, by decide⟩

/-- If the acceptor callback performs fewer unrefs than the endpoint has
external references, the whole hand-off completes without finalizing the
endpoint and leaves the registry globals untouched. -/
theorem handoffStep_preserves_reg (s : SysState) (i k : Nat) (v : DebugServer)
    (hv : lookupSrv s.servers i = some v) (hfin : v.finalized = false)
    (hk : k < v.refcount) :
    ∃ s3, handoffStep k i s = some s3 ∧ s3.reg = s.reg := by
  have hv1 : lookupSrv (dbus_server_ref i s).servers i =
      some { v with refcount := v.refcount + 1 } := by
    unfold dbus_server_ref
    dsimp only
    rw [lookupSrv_updateSrv, hv]
    rfl
  obtain ⟨s2, hrun, hlook2, hreg2⟩ :=
    callbackRun_decrements i k (dbus_server_ref i s)
      { v with refcount := v.refcount + 1 } hv1 hfin
      (by show k < v.refcount + 1; omega)
  dsimp only at hlook2
  have hunref :=
    dbus_server_unref_decrements s2 i { v with refcount := v.refcount + 1 - k }
      hlook2 hfin (by show 2 ≤ v.refcount + 1 - k; omega)
  have hstep : handoffStep k i s = dbus_server_unref i s2 := by
    unfold handoffStep
    rw [hrun]
  rw [hunref] at hstep
  exact ⟨_, hstep, hreg2⟩

/-- The `NoServer` failure result of the establisher. -/
def noServerRes (s : SysState) : ConnectResult :=
  { state := s, leaked := [], transport := none, error := some DbusError.noServer }

/-- An `OutOfMemory` failure result of the establisher with ledger `l`. -/
def noMemRes (s : SysState) (l : List Res) : ConnectResult :=
  { state := s, leaked := l, transport := none, error := some DbusError.noMemory }

/-- The channel-pair failure result of the establisher. -/
def pipeFailRes (s : SysState) : ConnectResult :=
  { state := s, leaked := heldStr.erase Res.addressString, transport := none,
    error := some (DbusError.failed "Could not create full-duplex pipe") }

/-- The success result of the establisher: post-state `s3` and the two
transports. -/
def successRes (s3 : SysState) (server_name : String) : ConnectResult :=
  { state := s3, leaked := (heldConn.erase Res.connection).erase Res.clientTransport,
    transport := some
      { client := { isServer := false,
                    address := some (String.append "debug-pipe:name=" server_name) },
        serverSide := { isServer := true, address := none } },
    error := none }

/-- C10 (amended): `_dbus_transport_debug_pipe_new` never mutates the
registry globals itself — on every failure path and on success the
registry is exactly as before — PROVIDED the acceptor callback does not
release the endpoint's last external reference (if it does, the
establisher's trailing `dbus_server_unref` finalizes the endpoint inside
the call, and `debug_finalize` releases the registry use-count; see the
counterexample). -/
theorem establish_preserves_registry (s : SysState) (server_name : String)
    (p : ConnectPlan) (res : ConnectResult)
    (hcb : ∀ es i v, s.reg.hash = some es → lookupStr es server_name = some i →
        lookupSrv s.servers i = some v → v.hasNewConnFn = true →
        p.cbUnrefs < v.refcount)
    (h : _dbus_transport_debug_pipe_new server_name p s = some res) :
    res.state.reg = s.reg := by
  unfold _dbus_transport_debug_pipe_new at h
  rcases hhash : s.reg.hash with _ | es
  · rw [hhash] at h
    have h2 : some (noServerRes s) = some res := h
    cases h2
    rfl
  · rw [hhash] at h
    dsimp only at h
    rcases hl : lookupStr es server_name with _ | i
    · rw [hl] at h
      have h2 : some (noServerRes s) = some res := h
      cases h2
      rfl
    · rw [hl] at h
      dsimp only at h
      rcases hs : lookupSrv s.servers i with _ | srv
      · rw [hs] at h
        exact Option.noConfusion h
      · rw [hs] at h
        dsimp only at h
        rcases hfin : srv.finalized with _ | _
        case true =>
          rw [hfin] at h
          exact Option.noConfusion h
        case false =>
        rw [hfin] at h
        rcases hdis : srv.disconnected with _ | _
        case true =>
          rw [hdis] at h
          have h2 : some (noServerRes s) = some res := h
          cases h2
          rfl
        case false =>
        rw [hdis] at h
        rcases hsi : p.strInit with _ | _
        case false =>
          rw [hsi] at h
          have h2 : some (noMemRes s []) = some res := h
          cases h2
          rfl
        case true =>
        rw [hsi] at h
        rcases ha1 : p.append1 with _ | _
        case false =>
          rw [ha1] at h
          have h2 : some (noMemRes s (heldStr.erase Res.addressString)) = some res := h
          cases h2
          rfl
        case true =>
        rw [ha1] at h
        rcases ha2 : p.append2 with _ | _
        case false =>
          rw [ha2] at h
          have h2 : some (noMemRes s (heldStr.erase Res.addressString)) = some res := h
          cases h2
          rfl
        case true =>
        rw [ha2] at h
        rcases hpi : p.pipe with _ | _
        case false =>
          rw [hpi] at h
          have h2 : some (pipeFailRes s) = some res := h
          cases h2
          rfl
        case true =>
        rw [hpi] at h
        rcases hct : p.clientT with _ | _
        case false =>
          rw [hct] at h
          have h2 : some (noMemRes s (((heldFds.erase Res.clientFd).erase Res.serverFd).erase Res.addressString)) = some res := h
          cases h2
          rfl
        case true =>
        rw [hct] at h
        rcases hst : p.serverT with _ | _
        case false =>
          rw [hst] at h
          have h2 : some (noMemRes s ((heldClientT.erase Res.clientTransport).erase Res.serverFd)) = some res := h
          cases h2
          rfl
        case true =>
        rw [hst] at h
        rcases hau : p.setAuth with _ | _
        case false =>
          rw [hau] at h
          have h2 : some (noMemRes s ((heldServerT.erase Res.serverTransport).erase Res.clientTransport)) = some res := h
          cases h2
          rfl
        case true =>
        rw [hau] at h
        rcases hcn : p.connNew with _ | _
        case false =>
          rw [hcn] at h
          have h2 : some (noMemRes s ((heldServerT.erase Res.serverTransport).erase Res.clientTransport)) = some res := h
          cases h2
          rfl
        case true =>
        rw [hcn] at h
        rcases hfn : srv.hasNewConnFn with _ | _
        case false =>
          rw [hfn] at h
          have h2 : some (successRes s server_name) = some res := h
          cases h2
          rfl
        case true =>
        rw [hfn] at h
        obtain ⟨s3, hstep, hregs⟩ :=
          handoffStep_preserves_reg s i p.cbUnrefs srv hs hfin
            (hcb es i srv hhash hl hs hfn)
        rw [hstep] at h
        have h2 : some (successRes s3 server_name) = some res := h
        cases h2
        exact hregs

/-- Endpoint "a" with an acceptor callback registered. -/
def srvACb : DebugServer :=
  { name := "a", disconnected := false, refcount := 1,
    hasNewConnFn := true, finalized := false }

/-- `stA` after `dbus_server_set_new_connection_function` on endpoint 0. -/
def stACb : SysState :=
  { reg := { hash := some [("a", 0)], refcount := 1 },
    servers := [(0, srvACb)], nextId := 1 }

/-- Witness for the amended C10 at a concrete input: a successful
establishment (callback registered, callback leaves the references alone)
returns with the registry exactly as before. -/
theorem establish_preserves_registry_witness :
    _dbus_transport_debug_pipe_new "a" allConn stACb = some (successRes stACb "a") ∧
    (successRes stACb "a").state.reg = stACb.reg :=
  ⟨by decide,
   establish_preserves_registry stACb "a" allConn (successRes stACb "a")
    (by
      intro es i v h1 h2 h3 _
      cases Option.some.inj h1
      cases Option.some.inj h2
      cases Option.some.inj h3
      decide)
    (by decide)⟩

/-- The oracle in which the acceptor callback releases the endpoint's one
external reference. -/
def cbKill : ConnectPlan := { allConn with cbUnrefs := 1 }

/-- `stACb` after a connection establishment whose callback released the
endpoint's last external reference: endpoint finalized, registry torn
down. -/
def stAfterKill : SysState :=
  { reg := { hash := none, refcount := 0 },
    servers := [(0, { name := "a", disconnected := false, refcount := 0,
                      hasNewConnFn := true, finalized := true })],
    nextId := 1 }

/-- Counterexample to C10 as stated: `stACb` is reachable (it is `stA`
after registering a callback), and a single
`_dbus_transport_debug_pipe_new "a"` during which the callback releases
the endpoint's last external reference returns successfully with the
registry MUTATED — use-count dropped to 0 and the hash table destroyed —
because the establisher's trailing `dbus_server_unref` ran
`debug_finalize`, hence `pipe_hash_unref`, inside the call. -/
theorem establish_mutates_registry_via_callback :
    dbus_server_set_new_connection_function 0 true stA = stACb ∧
    _dbus_transport_debug_pipe_new "a" cbKill stACb = some (successRes stAfterKill "a") ∧
    (successRes stAfterKill "a").error = none ∧
    ¬ (successRes stAfterKill "a").state.reg = stACb.reg ∧
    (successRes stAfterKill "a").state.reg.hash = none :=
  ⟨by decide, by decide, rfl, by decide, rfl⟩
